import Mathlib

set_option maxRecDepth 100000

/-!
# Verification of the R2 storage client (`src/api/clients/r2.py`)

A shallow embedding of the AWS Signature Version 4 signing routine and the
upload/delete request lifecycle of the Cloudflare R2 storage client, together
with theorems settling the specified properties.

Bytes are modelled as `Nat`s below 256, 32-bit words as `Nat`s reduced
modulo `2^32`, header mappings as association lists of strings (Python
`dict[str, str]`: unique keys, insertion order retained), and the HTTP
transport as an explicit function argument so that network interaction is
observable.
-/

namespace R2

/-! ## 32-bit word arithmetic -/

/-- `2^32`, the word modulus. -/
def m32 : Nat := 4294967296

/-- `2^32 - 1`, the word mask. -/
def mask32 : Nat := 4294967295

/-- Rotate a 32-bit word (a `Nat` below `2^32`) right by `n` bits. -/
def rotr (n x : Nat) : Nat := ((x >>> n) ||| (x <<< (32 - n))) &&& mask32

/-! ## SHA-256 (FIPS 180-4), over lists of bytes -/

/-- The 64 SHA-256 round constants, in decimal. -/
def roundK : List Nat :=
  [1116352408, 1899447441, 3049323471, 3921009573, 961987163, 1508970993,
   2453635748, 2870763221, 3624381080, 310598401, 607225278, 1426881987,
   1925078388, 2162078206, 2614888103, 3248222580, 3835390401, 4022224774,
   264347078, 604807628, 770255983, 1249150122, 1555081692, 1996064986,
   2554220882, 2821834349, 2952996808, 3210313671, 3336571891, 3584528711,
   113926993, 338241895, 666307205, 773529912, 1294757372, 1396182291,
   1695183700, 1986661051, 2177026350, 2456956037, 2730485921, 2820302411,
   3259730800, 3345764771, 3516065817, 3600352804, 4094571909, 275423344,
   430227734, 506948616, 659060556, 883997877, 958139571, 1322822218,
   1537002063, 1747873779, 1955562222, 2024104815, 2227730452, 2361852424,
   2428436474, 2756734187, 3204031479, 3329325298]

/-- σ₀, the first small sigma of the message schedule. -/
def smallSigma0 (x : Nat) : Nat := (rotr 7 x) ^^^ (rotr 18 x) ^^^ (x >>> 3)

/-- σ₁, the second small sigma of the message schedule. -/
def smallSigma1 (x : Nat) : Nat := (rotr 17 x) ^^^ (rotr 19 x) ^^^ (x >>> 10)

/-- Σ₀ of the compression function. -/
def bigSigma0 (x : Nat) : Nat := (rotr 2 x) ^^^ (rotr 13 x) ^^^ (rotr 22 x)

/-- Σ₁ of the compression function. -/
def bigSigma1 (x : Nat) : Nat := (rotr 6 x) ^^^ (rotr 11 x) ^^^ (rotr 25 x)

/-- The SHA-256 choice function. -/
def ch (x y z : Nat) : Nat := (x &&& y) ^^^ ((x ^^^ mask32) &&& z)

/-- The SHA-256 majority function. -/
def maj (x y z : Nat) : Nat := (x &&& y) ^^^ (x &&& z) ^^^ (y &&& z)

/-- Big-endian assembly of bytes into 32-bit words. -/
def bytesToWords : List Nat → List Nat
  | a :: b :: c :: d :: rest => (((a * 256 + b) * 256 + c) * 256 + d) :: bytesToWords rest
  | _ => []

/-- Split a word list into 16-word blocks. -/
def toBlocks : List Nat → List (List Nat)
  | w0 :: w1 :: w2 :: w3 :: w4 :: w5 :: w6 :: w7 ::
    w8 :: w9 :: w10 :: w11 :: w12 :: w13 :: w14 :: w15 :: rest =>
      [w0, w1, w2, w3, w4, w5, w6, w7, w8, w9, w10, w11, w12, w13, w14, w15]
        :: toBlocks rest
  | _ => []

/-- Extend the message schedule by `n` further words; `acc` holds the words
produced so far, most recent first. -/
def scheduleAux : Nat → List Nat → List Nat
  | 0, acc => acc.reverse
  | n + 1, acc =>
      let w := (smallSigma1 (acc.getD 1 0) + acc.getD 6 0 +
                smallSigma0 (acc.getD 14 0) + acc.getD 15 0) % m32
      scheduleAux n (w :: acc)

/-- The 64-word message schedule of one 16-word block. -/
def schedule (block : List Nat) : List Nat := scheduleAux 48 block.reverse

/-- The eight SHA-256 working registers. -/
structure Hash8 where
  a : Nat
  b : Nat
  c : Nat
  d : Nat
  e : Nat
  f : Nat
  g : Nat
  h : Nat
deriving Repr, DecidableEq

/-- One round of the SHA-256 compression function, consuming a
(schedule word, round constant) pair. -/
def round (st : Hash8) (kw : Nat × Nat) : Hash8 :=
  let t1 := (st.h + bigSigma1 st.e + ch st.e st.f st.g + kw.2 + kw.1) % m32
  let t2 := (bigSigma0 st.a + maj st.a st.b st.c) % m32
  ⟨(t1 + t2) % m32, st.a, st.b, st.c, (st.d + t1) % m32, st.e, st.f, st.g⟩

/-- Compress one 16-word block into the running hash state. -/
def compress (st : Hash8) (block : List Nat) : Hash8 :=
  let fin := ((schedule block).zip roundK).foldl round st
  ⟨(st.a + fin.a) % m32, (st.b + fin.b) % m32, (st.c + fin.c) % m32,
   (st.d + fin.d) % m32, (st.e + fin.e) % m32, (st.f + fin.f) % m32,
   (st.g + fin.g) % m32, (st.h + fin.h) % m32⟩

/-- The SHA-256 starting state (the eight initial hash words, in decimal). -/
def initH : Hash8 :=
  ⟨1779033703, 3144134277, 1013904242, 2773480762,
   1359893119, 2600822924, 528734635, 1541459225⟩

/-- A `Nat` as eight big-endian bytes. -/
def be64 (n : Nat) : List Nat :=
  [n >>> 56 &&& 255, n >>> 48 &&& 255, n >>> 40 &&& 255, n >>> 32 &&& 255,
   n >>> 24 &&& 255, n >>> 16 &&& 255, n >>> 8 &&& 255, n &&& 255]

/-- A 32-bit word as four big-endian bytes. -/
def wordBytes (w : Nat) : List Nat :=
  [w >>> 24 &&& 255, w >>> 16 &&& 255, w >>> 8 &&& 255, w &&& 255]

/-- SHA-256 message padding: a `0x80` byte, zeros to 56 mod 64, then the
bit length as eight big-endian bytes. -/
def padMessage (msg : List Nat) : List Nat :=
  msg ++ 128 :: (List.replicate ((120 - (msg.length + 1) % 64) % 64) 0 ++ be64 (8 * msg.length))

/-- The SHA-256 digest of a byte list, as 32 bytes. -/
def sha256 (msg : List Nat) : List Nat :=
  let st := (toBlocks (bytesToWords (padMessage msg))).foldl compress initH
  wordBytes st.a ++ wordBytes st.b ++ wordBytes st.c ++ wordBytes st.d ++
  wordBytes st.e ++ wordBytes st.f ++ wordBytes st.g ++ wordBytes st.h

/-- A nibble as a lowercase hex character. -/
def hexChar (n : Nat) : Char :=
  if n < 10 then Char.ofNat (48 + n) else Char.ofNat (87 + n)

/-- A byte as two lowercase hex characters. -/
def hexByte (n : Nat) : List Char := [hexChar (n / 16), hexChar (n % 16)]

/-- A byte list as its lowercase hex string (Python `bytes.hex()` /
`hashlib.sha256(...).hexdigest()` spelling). -/
def toHex (bs : List Nat) : String := ⟨bs.flatMap hexByte⟩

/-- `hashlib.sha256(payload).hexdigest()`. -/
def sha256Hex (msg : List Nat) : String := toHex (sha256 msg)

/-- HMAC-SHA256 with byte-list key and message (`hmac.new(key, msg,
hashlib.sha256).digest()`), block size 64. -/
def hmacSha256 (key msg : List Nat) : List Nat :=
  let k0 := if 64 < key.length then sha256 key else key
  let k := k0 ++ List.replicate (64 - k0.length) 0
  sha256 ((k.map fun b => b ^^^ 92) ++ sha256 ((k.map fun b => b ^^^ 54) ++ msg))

/-! ## Python string primitives

Python compares strings lexicographically by Unicode code point; `lexLe`
is that comparison (as `≤`) on the underlying character lists. -/

/-- Code-point lexicographic `≤` on character lists (Python string `<=`). -/
def lexLe : List Char → List Char → Bool
  | [], _ => true
  | _ :: _, [] => false
  | a :: as, b :: bs =>
      if a.toNat < b.toNat then true
      else if a.toNat = b.toNat then lexLe as bs
      else false

/-- Python `s <= t` on strings. -/
def strLe (s t : String) : Bool := lexLe s.data t.data

/-- Python `(k1, v1) <= (k2, v2)` on pairs of strings: names first,
values break ties. -/
def pairLe (x y : String × String) : Bool :=
  if x.1.data = y.1.data then lexLe x.2.data y.2.data else lexLe x.1.data y.1.data

/-! ## Python `sorted`, `str.lower`, `str.join`, `urllib.parse.quote` -/

/-- Python `sorted` on a list of `(name, value)` string pairs: tuples compared
lexicographically, names first.  Python's sort is stable, but `pairLe` is
antisymmetric, so every sorted permutation of the input coincides with
Python's output and insertion sort is a faithful model. -/
def pySortPairs (l : List (String × String)) : List (String × String) :=
  l.insertionSort (fun a b => pairLe a b = true)

/-- Python `sorted` on a list of strings (code-point order). -/
def pySortStrings (l : List String) : List String :=
  l.insertionSort (fun a b => strLe a b = true)

/-- Python `str.lower` on one character, for the ASCII range the client's
header names live in. -/
def lowerChar (c : Char) : Char :=
  if 65 ≤ c.toNat ∧ c.toNat ≤ 90 then Char.ofNat (c.toNat + 32) else c

/-- Python `str.lower` (ASCII range). -/
def lowerAscii (s : String) : String := ⟨s.data.map lowerChar⟩

/-- Python `sep.join(parts)`. -/
def pyJoin (sep : String) : List String → String
  | [] => ""
  | [x] => x
  | x :: y :: xs => x ++ sep ++ pyJoin sep (y :: xs)

/-- UTF-8 encoding of one character, as bytes (each a `Nat` below 256). -/
def utf8Char (c : Char) : List Nat :=
  let n := c.toNat
  if n < 128 then [n]
  else if n < 2048 then [192 + n / 64, 128 + n % 64]
  else if n < 65536 then [224 + n / 4096, 128 + (n / 64) % 64, 128 + n % 64]
  else [240 + n / 262144, 128 + (n / 4096) % 64, 128 + (n / 64) % 64, 128 + n % 64]

/-- Python `s.encode("utf-8")`: the UTF-8 bytes of a string. -/
def strBytes (s : String) : List Nat := s.data.flatMap utf8Char

/-- Bytes never percent-encoded by `urllib.parse.quote(path, safe="/")`:
ASCII letters, digits, `_ . - ~`, and the `safe` character `/`. -/
def quoteSafeByte (b : Nat) : Bool :=
  (48 ≤ b && b ≤ 57) || (65 ≤ b && b ≤ 90) || (97 ≤ b && b ≤ 122) ||
    b == 95 || b == 46 || b == 45 || b == 126 || b == 47

/-- A nibble as an uppercase hex character (percent-encoding spelling). -/
def hexUpperChar (n : Nat) : Char :=
  if n < 10 then Char.ofNat (48 + n) else Char.ofNat (55 + n)

/-- One byte as `urllib.parse.quote(path, safe="/")` renders it: kept
verbatim when safe, `%XX` otherwise. -/
def quoteByte (b : Nat) : List Char :=
  if quoteSafeByte b then [Char.ofNat b] else ['%', hexUpperChar (b / 16), hexUpperChar (b % 16)]

/-- Python `urllib.parse.quote(path, safe="/")`: percent-encode the UTF-8
bytes of the path, leaving safe bytes (among them `/`) verbatim. -/
def pythonQuote (s : String) : String := ⟨(strBytes s).flatMap quoteByte⟩

/-! ## Timestamps and Python `dict[str, str]` -/

/-- A UTC wall-clock instant as `datetime.strftime` consumes it.  The
client only ever formats `datetime.now(UTC)`, whose year has four digits. -/
structure Timestamp where
  year : Nat
  month : Nat
  day : Nat
  hour : Nat
  minute : Nat
  second : Nat
deriving Repr, DecidableEq

/-- A number zero-padded to two digits (`%m`, `%d`, `%H`, `%M`, `%S`). -/
def pad2 (n : Nat) : String := if n < 10 then "0" ++ toString n else toString n

/-- A number zero-padded to four digits (`%Y` for the years
`datetime.now` produces). -/
def pad4 (n : Nat) : String :=
  if n < 10 then "000" ++ toString n
  else if n < 100 then "00" ++ toString n
  else if n < 1000 then "0" ++ toString n
  else toString n

/-- `timestamp.strftime("%Y%m%d")`. -/
def fmtDate (t : Timestamp) : String := pad4 t.year ++ pad2 t.month ++ pad2 t.day

/-- `timestamp.strftime("%Y%m%dT%H%M%SZ")`. -/
def fmtAmzDate (t : Timestamp) : String :=
  fmtDate t ++ "T" ++ pad2 t.hour ++ pad2 t.minute ++ pad2 t.second ++ "Z"

/-- A Python `dict[str, str]`: keys unique, insertion order retained. -/
abbrev Headers := List (String × String)

/-- Python `d[k] = v`: replace the value in place when the key is present,
append the new entry otherwise. -/
def dictInsert : Headers → String → String → Headers
  | [], k, v => [(k, v)]
  | (k', v') :: rest, k, v =>
      if k' = k then (k, v) :: rest else (k', v') :: dictInsert rest k v

/-! ## The Signer (`R2Client._sign_request`) -/

/-- The per-request signing context handed to `_sign_request`:
`{method, path, headers, payload, timestamp}`. -/
structure SignInput where
  method : String
  path : String
  headers : Headers
  payload : List Nat
  timestamp : Timestamp
deriving Repr

/-- `region = "auto"`. -/
def region : String := "auto"

/-- `service = "s3"`. -/
def service : String := "s3"

/-- `canonical_uri = quote(path, safe="/")`. -/
def canonicalUri (path : String) : String := pythonQuote path

/-- `canonical_querystring = ""`. -/
def canonicalQuerystring : String := ""

/-- `canonical_headers =
"\n".join(f"{k.lower()}:{v}" for k, v in sorted(headers.items())) + "\n"`. -/
def canonicalHeaders (headers : Headers) : String :=
  pyJoin "\n" ((pySortPairs headers).map fun p => lowerAscii p.1 ++ ":" ++ p.2) ++ "\n"

/-- `signed_headers = ";".join(sorted(k.lower() for k in headers.keys()))`. -/
def signedHeaders (headers : Headers) : String :=
  pyJoin ";" (pySortStrings (headers.map fun p => lowerAscii p.1))

/-- `payload_hash = hashlib.sha256(payload).hexdigest()`. -/
def payloadHash (payload : List Nat) : String := sha256Hex payload

/-- `canonical_request`, the six newline-joined fields. -/
def canonicalRequest (i : SignInput) : String :=
  i.method ++ "\n" ++ canonicalUri i.path ++ "\n" ++ canonicalQuerystring ++ "\n" ++
    canonicalHeaders i.headers ++ "\n" ++ signedHeaders i.headers ++ "\n" ++
    payloadHash i.payload

/-- `algorithm = "AWS4-HMAC-SHA256"`. -/
def algorithm : String := "AWS4-HMAC-SHA256"

/-- `credential_scope = f"{timestamp.strftime('%Y%m%d')}/{region}/{service}/aws4_request"`. -/
def credentialScope (t : Timestamp) : String :=
  fmtDate t ++ "/" ++ region ++ "/" ++ service ++ "/aws4_request"

/-- `string_to_sign`: algorithm, timestamp, scope, and the hex SHA-256 of the
UTF-8 bytes of the canonical request, newline-joined. -/
def stringToSign (i : SignInput) : String :=
  algorithm ++ "\n" ++ fmtAmzDate i.timestamp ++ "\n" ++ credentialScope i.timestamp ++ "\n" ++
    sha256Hex (strBytes (canonicalRequest i))

/-- The inner `_sign(key, msg)` helper: HMAC-SHA256 of the UTF-8 bytes of
`msg` under `key`. -/
def signStep (key : List Nat) (msg : String) : List Nat := hmacSha256 key (strBytes msg)

/-- `k_date = _sign(f"AWS4{self.secret_access_key}".encode(), timestamp.strftime("%Y%m%d"))`. -/
def kDate (secretKey : String) (t : Timestamp) : List Nat :=
  signStep (strBytes ("AWS4" ++ secretKey)) (fmtDate t)

/-- `k_region = _sign(k_date, region)`. -/
def kRegion (secretKey : String) (t : Timestamp) : List Nat :=
  signStep (kDate secretKey t) region

/-- `k_service = _sign(k_region, service)`. -/
def kService (secretKey : String) (t : Timestamp) : List Nat :=
  signStep (kRegion secretKey t) service

/-- `k_signing = _sign(k_service, "aws4_request")`. -/
def kSigning (secretKey : String) (t : Timestamp) : List Nat :=
  signStep (kService secretKey t) "aws4_request"

/-- `signature = hmac.new(k_signing, string_to_sign.encode(), hashlib.sha256).hexdigest()`. -/
def signature (i : SignInput) (secretKey : String) : String :=
  toHex (hmacSha256 (kSigning secretKey i.timestamp) (strBytes (stringToSign i)))

/-- The `Authorization` header value built by `_sign_request`. -/
def authorization (i : SignInput) (accessKeyId secretKey : String) : String :=
  algorithm ++ " Credential=" ++ accessKeyId ++ "/" ++ credentialScope i.timestamp ++
    ", SignedHeaders=" ++ signedHeaders i.headers ++ ", Signature=" ++ signature i secretKey

/-- `_sign_request`: stores the `Authorization` entry into the headers mapping
(`headers["Authorization"] = authorization`) and returns that mapping. -/
def signRequest (i : SignInput) (accessKeyId secretKey : String) : Headers :=
  dictInsert i.headers "Authorization" (authorization i accessKeyId secretKey)

/-! ## The Storage Client (`R2Client.upload_file` / `R2Client.delete_file`) -/

/-- The client's configuration: credentials, account, bucket, and the public
base URL (`settings.r2_public_url`), all fixed at construction. -/
structure R2Config where
  accessKeyId : String
  secretAccessKey : String
  accountId : String
  bucketName : String
  publicUrl : String
deriving Repr

/-- `self.endpoint_url = f"https://{self.account_id}.r2.cloudflarestorage.com"`. -/
def endpointUrl (cfg : R2Config) : String :=
  "https://" ++ cfg.accountId ++ ".r2.cloudflarestorage.com"

/-- One HTTP request as handed to the transport
(`client.put(url, content=file_data, headers=headers)` /
`client.delete(url, headers=headers)`). -/
structure HttpRequest where
  method : String
  url : String
  headers : Headers
  body : List Nat
deriving Repr

/-- What one transport invocation yields: an HTTP response, or a raised
connection-level error (DNS, connect, timeout, TLS). -/
inductive TransportResult where
  | response (status : Nat) (body : String)
  | failure (message : String)
deriving Repr, DecidableEq

/-- The underlying cause wrapped by a storage failure: a non-2xx response
(`response.raise_for_status()`) or a transport-level error. -/
inductive FailureCause where
  | httpStatus (status : Nat) (body : String)
  | network (message : String)
deriving Repr, DecidableEq

/-- The client's error taxonomy: `ValueError("Key cannot be empty")` before
any signing or network work, or the wrapping `Exception` raised from the
`try` block, carrying the original cause. -/
inductive R2Error where
  | validationError (message : String)
  | storageError (context : String) (cause : FailureCause)
deriving Repr, DecidableEq

/-- `httpx.Response.raise_for_status()` passes exactly on 2xx statuses. -/
def is2xx (status : Nat) : Bool := 200 ≤ status && status < 300

/-- The headers `upload_file` builds before signing. -/
def uploadHeaders (cfg : R2Config) (contentType : String) (t : Timestamp)
    (fileData : List Nat) : Headers :=
  [("Host", cfg.accountId ++ ".r2.cloudflarestorage.com"),
   ("Content-Type", contentType),
   ("x-amz-date", fmtAmzDate t),
   ("x-amz-content-sha256", sha256Hex fileData)]

/-- The signing context `upload_file` passes to `_sign_request`. -/
def uploadSignInput (cfg : R2Config) (fileData : List Nat) (key contentType : String)
    (t : Timestamp) : SignInput :=
  ⟨"PUT", "/" ++ cfg.bucketName ++ "/" ++ key,
   uploadHeaders cfg contentType t fileData, fileData, t⟩

/-- The PUT request `upload_file` issues: the bucket/key URL with the signed
headers and the payload. -/
def uploadRequest (cfg : R2Config) (fileData : List Nat) (key contentType : String)
    (t : Timestamp) : HttpRequest :=
  ⟨"PUT", endpointUrl cfg ++ "/" ++ cfg.bucketName ++ "/" ++ key,
   signRequest (uploadSignInput cfg fileData key contentType t)
     cfg.accessKeyId cfg.secretAccessKey,
   fileData⟩

/-- `upload_file`, with the transport explicit and the current instant passed
in (`timestamp = dt.now(UTC)` is read once and reused).  Returns the outcome
together with the list of transport invocations made. -/
def uploadFile (cfg : R2Config) (transport : HttpRequest → TransportResult)
    (fileData : List Nat) (key contentType : String) (t : Timestamp) :
    Except R2Error String × List HttpRequest :=
  if key = "" then (.error (.validationError "Key cannot be empty"), [])
  else
    match transport (uploadRequest cfg fileData key contentType t) with
    | .response status body =>
        if is2xx status then
          (.ok (cfg.publicUrl ++ "/" ++ key), [uploadRequest cfg fileData key contentType t])
        else
          (.error (.storageError "Failed to upload file to R2" (.httpStatus status body)),
           [uploadRequest cfg fileData key contentType t])
    | .failure msg =>
        (.error (.storageError "Failed to upload file to R2" (.network msg)),
         [uploadRequest cfg fileData key contentType t])

/-- The headers `delete_file` builds before signing: the payload hash is the
digest of the empty byte sequence. -/
def deleteHeaders (cfg : R2Config) (t : Timestamp) : Headers :=
  [("Host", cfg.accountId ++ ".r2.cloudflarestorage.com"),
   ("x-amz-date", fmtAmzDate t),
   ("x-amz-content-sha256", sha256Hex [])]

/-- The signing context `delete_file` passes to `_sign_request`: empty payload. -/
def deleteSignInput (cfg : R2Config) (key : String) (t : Timestamp) : SignInput :=
  ⟨"DELETE", "/" ++ cfg.bucketName ++ "/" ++ key, deleteHeaders cfg t, [], t⟩

/-- The DELETE request `delete_file` issues. -/
def deleteRequest (cfg : R2Config) (key : String) (t : Timestamp) : HttpRequest :=
  ⟨"DELETE", endpointUrl cfg ++ "/" ++ cfg.bucketName ++ "/" ++ key,
   signRequest (deleteSignInput cfg key t) cfg.accessKeyId cfg.secretAccessKey,
   []⟩

/-- `delete_file`, with the transport explicit and the instant passed in. -/
def deleteFile (cfg : R2Config) (transport : HttpRequest → TransportResult)
    (key : String) (t : Timestamp) :
    Except R2Error Unit × List HttpRequest :=
  if key = "" then (.error (.validationError "Key cannot be empty"), [])
  else
    match transport (deleteRequest cfg key t) with
    | .response status body =>
        if is2xx status then ((.ok ()), [deleteRequest cfg key t])
        else
          (.error (.storageError "Failed to delete file from R2" (.httpStatus status body)),
           [deleteRequest cfg key t])
    | .failure msg =>
        (.error (.storageError "Failed to delete file from R2" (.network msg)),
         [deleteRequest cfg key t])

/-- The cause a failing transport outcome carries. -/
def causeOf : TransportResult → FailureCause
  | .response s b => .httpStatus s b
  | .failure m => .network m

/-- Whether a transport outcome makes the client's `try` block fail: any
non-2xx response, or a raised transport error. -/
def isFailureOutcome : TransportResult → Bool
  | .response s _ => !(is2xx s)
  | .failure _ => true

/-- A fixed signing context used as a concrete test vector: it reproduces,
byte for byte, the value the Python source computes on the same input. -/
def vecInput : SignInput :=
  ⟨"PUT", "/bucket/key.txt",
   [("Host", "acct.r2.cloudflarestorage.com"), ("Content-Type", "text/plain"),
    ("x-amz-date", "20240101T000000Z"),
    ("x-amz-content-sha256", sha256Hex [104, 101, 108, 108, 111])],
   [104, 101, 108, 108, 111], ⟨2024, 1, 1, 0, 0, 0⟩⟩

/-- The canonical headers block as §4.1 step 3 of the spec words it: one
`lowercased-name:value` line per header, headers sorted lexicographically by
LOWERCASED name, one trailing newline — for comparison with
`canonicalHeaders`, which the source builds from `sorted(headers.items())`,
i.e. sorted by the ORIGINAL name before lowercasing. -/
def specCanonicalHeaders (headers : Headers) : String :=
  pyJoin "\n" ((pySortPairs (headers.map fun p => (lowerAscii p.1, p.2))).map
    fun p => p.1 ++ ":" ++ p.2) ++ "\n"

/-- A concrete configuration for the witnesses. -/
def exCfg : R2Config := ⟨"AK", "SK", "acct", "bucket", "https://cdn.example.com"⟩

/-- A concrete instant for the witnesses. -/
def exTs : Timestamp := ⟨2024, 1, 1, 0, 0, 0⟩

/-- A transport stub answering HTTP 403 to everything. -/
def ex403 : HttpRequest → TransportResult := fun _ => .response 403 "Forbidden"

/-- A transport stub answering HTTP 200 to everything. -/
def ex200 : HttpRequest → TransportResult := fun _ => .response 200 ""

/-! ## Facts and claims -/

example : sha256Hex [] =
    "e3b0c44298fc1c149afbf4c8996fb92427ae41e4649b934ca495991b7852b855" := by decide

example : sha256Hex [97, 98, 99] =
    "ba7816bf8f01cfea414140de5dae2223b00361a396177a9cb410ff61f20015ad" := by decide

theorem lexLe_cons_iff (a b : Char) (as bs : List Char) :
    lexLe (a :: as) (b :: bs) = true ↔
      a.toNat < b.toNat ∨ (a.toNat = b.toNat ∧ lexLe as bs = true) := by
  simp only [lexLe]
  by_cases h₁ : a.toNat < b.toNat
  · simp [h₁]
  · by_cases h₂ : a.toNat = b.toNat
    · simp [h₁, h₂]
    · simp [h₁, h₂]

theorem lexLe_total : ∀ as bs : List Char, lexLe as bs = true ∨ lexLe bs as = true
  | [], _ => Or.inl rfl
  | _ :: _, [] => Or.inr rfl
  | a :: as, b :: bs => by
    rw [lexLe_cons_iff, lexLe_cons_iff]
    rcases Nat.lt_trichotomy a.toNat b.toNat with h | h | h
    · exact Or.inl (Or.inl h)
    · rcases lexLe_total as bs with h' | h'
      · exact Or.inl (Or.inr ⟨h, h'⟩)
      · exact Or.inr (Or.inr ⟨h.symm, h'⟩)
    · exact Or.inr (Or.inl h)

theorem lexLe_trans : ∀ as bs cs : List Char,
    lexLe as bs = true → lexLe bs cs = true → lexLe as cs = true
  | [], _, _, _, _ => rfl
  | _ :: _, [], _, h, _ => by simp [lexLe] at h
  | _ :: _, _ :: _, [], _, h => by simp [lexLe] at h
  | a :: as, b :: bs, c :: cs, h₁, h₂ => by
    rw [lexLe_cons_iff] at h₁ h₂ ⊢
    rcases h₁ with h₁ | ⟨h₁, h₁'⟩ <;> rcases h₂ with h₂ | ⟨h₂, h₂'⟩
    · exact Or.inl (Nat.lt_trans h₁ h₂)
    · exact Or.inl (h₂ ▸ h₁)
    · exact Or.inl (h₁ ▸ h₂)
    · exact Or.inr ⟨h₁.trans h₂, lexLe_trans as bs cs h₁' h₂'⟩

theorem charToNat_inj {a b : Char} (h : a.toNat = b.toNat) : a = b :=
  Char.eq_of_val_eq (UInt32.toNat.inj h)

theorem lexLe_antisymm : ∀ as bs : List Char,
    lexLe as bs = true → lexLe bs as = true → as = bs
  | [], [], _, _ => rfl
  | [], _ :: _, _, h => by simp [lexLe] at h
  | _ :: _, [], h, _ => by simp [lexLe] at h
  | a :: as, b :: bs, h₁, h₂ => by
    rw [lexLe_cons_iff] at h₁ h₂
    rcases h₁ with h₁ | ⟨h₁, h₁'⟩ <;> rcases h₂ with h₂ | ⟨h₂, h₂'⟩
    · omega
    · omega
    · omega
    · rw [charToNat_inj h₁, lexLe_antisymm as bs h₁' h₂']

theorem pairLe_def (x y : String × String) :
    pairLe x y = true ↔
      (x.1.data = y.1.data ∧ lexLe x.2.data y.2.data = true) ∨
      (x.1.data ≠ y.1.data ∧ lexLe x.1.data y.1.data = true) := by
  unfold pairLe
  split <;> simp [*]

theorem pairLe_total (x y : String × String) : pairLe x y = true ∨ pairLe y x = true := by
  rw [pairLe_def, pairLe_def]
  by_cases hk : x.1.data = y.1.data
  · rcases lexLe_total x.2.data y.2.data with h | h
    · exact Or.inl (Or.inl ⟨hk, h⟩)
    · exact Or.inr (Or.inl ⟨hk.symm, h⟩)
  · rcases lexLe_total x.1.data y.1.data with h | h
    · exact Or.inl (Or.inr ⟨hk, h⟩)
    · exact Or.inr (Or.inr ⟨fun e => hk e.symm, h⟩)

theorem pairLe_trans (x y z : String × String) :
    pairLe x y = true → pairLe y z = true → pairLe x z = true := by
  rw [pairLe_def, pairLe_def, pairLe_def]
  rintro (⟨e₁, v₁⟩ | ⟨n₁, k₁⟩) (⟨e₂, v₂⟩ | ⟨n₂, k₂⟩)
  · exact Or.inl ⟨e₁.trans e₂, lexLe_trans _ _ _ v₁ v₂⟩
  · exact Or.inr ⟨by rw [e₁]; exact n₂, by rw [e₁]; exact k₂⟩
  · exact Or.inr ⟨by rw [← e₂]; exact n₁, by rw [← e₂]; exact k₁⟩
  · by_cases hxz : x.1.data = z.1.data
    · exfalso
      apply n₁
      exact lexLe_antisymm _ _ k₁ (by rw [← hxz] at k₂; exact k₂)
    · exact Or.inr ⟨hxz, lexLe_trans _ _ _ k₁ k₂⟩

theorem pairLe_antisymm (x y : String × String) :
    pairLe x y = true → pairLe y x = true → x = y := by
  obtain ⟨xk, xv⟩ := x
  obtain ⟨yk, yv⟩ := y
  rw [pairLe_def, pairLe_def]
  rintro (⟨e₁, v₁⟩ | ⟨n₁, k₁⟩) (⟨e₂, v₂⟩ | ⟨n₂, k₂⟩)
  · simp only [Prod.mk.injEq]
    exact ⟨String.ext e₁, String.ext (lexLe_antisymm _ _ v₁ v₂)⟩
  · exact absurd e₁.symm n₂
  · exact absurd e₂.symm n₁
  · exact absurd (lexLe_antisymm _ _ k₁ k₂) n₁

theorem strLe_total (x y : String) : strLe x y = true ∨ strLe y x = true :=
  lexLe_total x.data y.data

theorem strLe_trans (x y z : String) :
    strLe x y = true → strLe y z = true → strLe x z = true :=
  lexLe_trans x.data y.data z.data

theorem strLe_antisymm (x y : String) :
    strLe x y = true → strLe y x = true → x = y := fun h₁ h₂ =>
  String.ext (lexLe_antisymm x.data y.data h₁ h₂)

theorem pySortPairs_eq_of_perm {l₁ l₂ : List (String × String)} (h : l₁.Perm l₂) :
    pySortPairs l₁ = pySortPairs l₂ := by
  haveI : IsAntisymm (String × String) (fun a b => pairLe a b = true) :=
    ⟨fun a b => pairLe_antisymm a b⟩
  haveI : IsTotal (String × String) (fun a b => pairLe a b = true) :=
    ⟨fun a b => pairLe_total a b⟩
  haveI : IsTrans (String × String) (fun a b => pairLe a b = true) :=
    ⟨fun a b c => pairLe_trans a b c⟩
  exact List.eq_of_perm_of_sorted
    ((List.perm_insertionSort _ l₁).trans (h.trans (List.perm_insertionSort _ l₂).symm))
    (List.sorted_insertionSort _ l₁)
    (List.sorted_insertionSort _ l₂)

theorem pySortStrings_eq_of_perm {l₁ l₂ : List String} (h : l₁.Perm l₂) :
    pySortStrings l₁ = pySortStrings l₂ := by
  haveI : IsAntisymm String (fun a b => strLe a b = true) :=
    ⟨fun a b => strLe_antisymm a b⟩
  haveI : IsTotal String (fun a b => strLe a b = true) :=
    ⟨fun a b => strLe_total a b⟩
  haveI : IsTrans String (fun a b => strLe a b = true) :=
    ⟨fun a b c => strLe_trans a b c⟩
  exact List.eq_of_perm_of_sorted
    ((List.perm_insertionSort _ l₁).trans (h.trans (List.perm_insertionSort _ l₂).symm))
    (List.sorted_insertionSort _ l₁)
    (List.sorted_insertionSort _ l₂)

example : pythonQuote "/bucket/a b+c.txt" = "/bucket/a%20b%2Bc.txt" := by decide
example : lowerAscii "Content-Type" = "content-type" := by decide
example : pyJoin ";" ["a", "b", "c"] = "a;b;c" := by decide
example : pySortPairs [("b", "2"), ("A", "1")] = [("A", "1"), ("b", "2")] := by decide

example : fmtAmzDate ⟨2024, 1, 1, 0, 0, 0⟩ = "20240101T000000Z" := by decide

theorem dictInsert_lookup_self : ∀ (hs : Headers) (k v : String),
    (dictInsert hs k v).lookup k = some v
  | [], k, v => by simp [dictInsert, List.lookup]
  | (k', v') :: rest, k, v => by
    by_cases h : k' = k
    · simp [dictInsert, h, List.lookup]
    · have hb : (k == k') = false := beq_eq_false_iff_ne.mpr (Ne.symm h)
      simp [dictInsert, h, List.lookup, hb, dictInsert_lookup_self rest k v]

theorem dictInsert_lookup_other : ∀ (hs : Headers) (k v k' : String), k' ≠ k →
    (dictInsert hs k v).lookup k' = hs.lookup k'
  | [], k, v, k', h => by
    have hb : (k' == k) = false := beq_eq_false_iff_ne.mpr h
    simp [dictInsert, List.lookup, hb]
  | (k₀, v₀) :: rest, k, v, k', h => by
    by_cases h₀ : k₀ = k
    · subst h₀
      have hb : (k' == k₀) = false := beq_eq_false_iff_ne.mpr h
      simp [dictInsert, List.lookup, hb]
    · by_cases hk : k' = k₀
      · simp [dictInsert, h₀, List.lookup, hk]
      · have hb : (k' == k₀) = false := beq_eq_false_iff_ne.mpr hk
        simp [dictInsert, h₀, List.lookup, hb, dictInsert_lookup_other rest k v k' h]

theorem strAppend_assoc (a b c : String) : a ++ b ++ c = a ++ (b ++ c) :=
  String.ext (by simp)

example : canonicalRequest vecInput =
    "PUT\n/bucket/key.txt\n\ncontent-type:text/plain\nhost:acct.r2.cloudflarestorage.com\nx-amz-content-sha256:2cf24dba5fb0a30e26e83b2ac5b9e29e1b161e5c1fa7425e73043362938b9824\nx-amz-date:20240101T000000Z\n\ncontent-type;host;x-amz-content-sha256;x-amz-date\n2cf24dba5fb0a30e26e83b2ac5b9e29e1b161e5c1fa7425e73043362938b9824" := by
  decide

example : authorization vecInput "AKIDEXAMPLE" "SECRETKEY" =
    "AWS4-HMAC-SHA256 Credential=AKIDEXAMPLE/20240101/auto/s3/aws4_request, SignedHeaders=content-type;host;x-amz-content-sha256;x-amz-date, Signature=4a9b51b97bc1f6b40c4f70621412f624c2ac96e2a07a1460fd9920c475687c9b" := by
  decide

/-! ## The claims -/

/-- C1, counterexample: on the header mapping `{"B": "1", "a": "2"}` the
source's canonical headers block is ordered by the ORIGINAL names
(`"B" < "a"` by code point, so `b:1` before `a:2`), not by the lowercased
names as the claim states, and it therefore disagrees with the ordering of
the signed-headers list (`a;b`), which IS built from lowercased names. -/
theorem c1_counterexample :
    canonicalHeaders [("B", "1"), ("a", "2")] = "b:1\na:2\n" ∧
    specCanonicalHeaders [("B", "1"), ("a", "2")] = "a:2\nb:1\n" ∧
    canonicalHeaders [("B", "1"), ("a", "2")] ≠
      specCanonicalHeaders [("B", "1"), ("a", "2")] ∧
    signedHeaders [("B", "1"), ("a", "2")] = "a;b" := by decide

/-- C1 (amended): the canonical headers block lists one
`lowercased-name:value` line per header with a single trailing newline, but
the entries are sorted lexicographically by the ORIGINAL (as-supplied)
name–value pair, not by lowercased name; the signed-headers list is the
lowercased names sorted lexicographically and joined with `;` (the two
orders coincide whenever original-name order and lowercased-name order
agree, as for the all-ASCII, uniformly-cased headers the client itself
builds); and supplying the same headers in any permutation of order yields
the identical canonical headers block, signed-headers list, and signature. -/
theorem c1_canonical_ordering (m p : String) (pl : List Nat) (ts : Timestamp)
    (ak sk : String) (hs₁ hs₂ : Headers) (hperm : hs₁.Perm hs₂) :
    canonicalHeaders hs₁ =
      pyJoin "\n" ((pySortPairs hs₁).map fun q => lowerAscii q.1 ++ ":" ++ q.2) ++ "\n" ∧
    signedHeaders hs₁ = pyJoin ";" (pySortStrings (hs₁.map fun q => lowerAscii q.1)) ∧
    canonicalHeaders hs₁ = canonicalHeaders hs₂ ∧
    signedHeaders hs₁ = signedHeaders hs₂ ∧
    authorization ⟨m, p, hs₁, pl, ts⟩ ak sk = authorization ⟨m, p, hs₂, pl, ts⟩ ak sk := by
  have hch : canonicalHeaders hs₁ = canonicalHeaders hs₂ := by
    unfold canonicalHeaders
    rw [pySortPairs_eq_of_perm hperm]
  have hsh : signedHeaders hs₁ = signedHeaders hs₂ := by
    unfold signedHeaders
    rw [pySortStrings_eq_of_perm (hperm.map _)]
  refine ⟨rfl, rfl, hch, hsh, ?_⟩
  simp only [authorization, signature, stringToSign, canonicalRequest, hch, hsh]

/-- C1 witness: the amended statement at a concrete pair of permuted header
mappings. -/
theorem c1_witness :
    ([("Host", "h"), ("x-amz-date", "d")] : Headers).Perm
      [("x-amz-date", "d"), ("Host", "h")] ∧
    (canonicalHeaders [("Host", "h"), ("x-amz-date", "d")] =
       pyJoin "\n" ((pySortPairs [("Host", "h"), ("x-amz-date", "d")]).map
         fun q => lowerAscii q.1 ++ ":" ++ q.2) ++ "\n" ∧
     signedHeaders [("Host", "h"), ("x-amz-date", "d")] =
       pyJoin ";" (pySortStrings ([("Host", "h"), ("x-amz-date", "d")].map
         fun q => lowerAscii q.1)) ∧
     canonicalHeaders [("Host", "h"), ("x-amz-date", "d")] =
       canonicalHeaders [("x-amz-date", "d"), ("Host", "h")] ∧
     signedHeaders [("Host", "h"), ("x-amz-date", "d")] =
       signedHeaders [("x-amz-date", "d"), ("Host", "h")] ∧
     authorization ⟨"PUT", "/b/k", [("Host", "h"), ("x-amz-date", "d")], [], exTs⟩ "AK" "SK" =
       authorization ⟨"PUT", "/b/k", [("x-amz-date", "d"), ("Host", "h")], [], exTs⟩ "AK" "SK") :=
  ⟨by decide,
   c1_canonical_ordering "PUT" "/b/k" [] exTs "AK" "SK" _ _ (by decide)⟩

/-- C2: the string to sign is `AWS4-HMAC-SHA256`, the ISO8601-basic
timestamp, the credential scope `<YYYYMMDD>/auto/s3/aws4_request`, and the
hex SHA-256 of the canonical request, newline-joined; the signing key is the
HMAC-SHA256 chain `kDate = HMAC("AWS4"+secretKey, YYYYMMDD)`,
`kRegion = HMAC(kDate, "auto")`, `kService = HMAC(kRegion, "s3")`,
`kSigning = HMAC(kService, "aws4_request")`; the signature is the
hex HMAC-SHA256 of the string to sign under `kSigning`; and the
Authorization value is exactly
`AWS4-HMAC-SHA256 Credential=<ak>/<scope>, SignedHeaders=<list>, Signature=<sig>`. -/
theorem c2_signing_scheme (i : SignInput) (ak sk : String) :
    stringToSign i =
      "AWS4-HMAC-SHA256" ++ "\n" ++ fmtAmzDate i.timestamp ++ "\n" ++
        credentialScope i.timestamp ++ "\n" ++
        sha256Hex (strBytes (canonicalRequest i)) ∧
    credentialScope i.timestamp = fmtDate i.timestamp ++ "/auto/s3/aws4_request" ∧
    kDate sk i.timestamp =
      hmacSha256 (strBytes ("AWS4" ++ sk)) (strBytes (fmtDate i.timestamp)) ∧
    kRegion sk i.timestamp = hmacSha256 (kDate sk i.timestamp) (strBytes "auto") ∧
    kService sk i.timestamp = hmacSha256 (kRegion sk i.timestamp) (strBytes "s3") ∧
    kSigning sk i.timestamp = hmacSha256 (kService sk i.timestamp) (strBytes "aws4_request") ∧
    signature i sk = toHex (hmacSha256 (kSigning sk i.timestamp) (strBytes (stringToSign i))) ∧
    authorization i ak sk =
      "AWS4-HMAC-SHA256 Credential=" ++ ak ++ "/" ++ credentialScope i.timestamp ++
        ", SignedHeaders=" ++ signedHeaders i.headers ++ ", Signature=" ++ signature i sk := by
  refine ⟨rfl, ?_, rfl, rfl, rfl, rfl, rfl, rfl⟩
  apply String.ext
  simp [credentialScope, region, service, strAppend_assoc]

/-- C3: the canonical request hashed by the Signer is the six fields
`METHOD`, `CANONICAL_URI`, `CANONICAL_QUERY` (always empty),
`CANONICAL_HEADERS`, `SIGNED_HEADERS`, `PAYLOAD_HASH` joined by newlines;
the canonical URI percent-encodes the path's UTF-8 bytes leaving `/`
unencoded; the payload hash is the hex SHA-256 of the raw payload bytes; and
the headers block's own trailing newline yields exactly one blank line
(`\n\n`) before the signed-headers field. -/
theorem c3_canonical_request (i : SignInput) :
    canonicalRequest i =
      i.method ++ "\n" ++ canonicalUri i.path ++ "\n" ++ "" ++ "\n" ++
        canonicalHeaders i.headers ++ "\n" ++ signedHeaders i.headers ++ "\n" ++
        sha256Hex i.payload ∧
    canonicalQuerystring = "" ∧
    canonicalUri i.path = String.mk ((strBytes i.path).flatMap quoteByte) ∧
    quoteByte 47 = ['/'] ∧
    payloadHash i.payload = sha256Hex i.payload ∧
    ∃ pre, canonicalRequest i =
      pre ++ "\n" ++ "\n" ++ signedHeaders i.headers ++ "\n" ++ sha256Hex i.payload := by
  refine ⟨rfl, rfl, rfl, rfl, rfl,
    ⟨i.method ++ "\n" ++ canonicalUri i.path ++ "\n" ++ "" ++ "\n" ++
      pyJoin "\n" ((pySortPairs i.headers).map fun q => lowerAscii q.1 ++ ":" ++ q.2), ?_⟩⟩
  simp [canonicalRequest, canonicalHeaders, canonicalQuerystring, payloadHash,
    strAppend_assoc]

/-- C4: the upload and delete requests place `x-amz-date`, formatted from
the one timestamp argument, among the signed headers, and the same
timestamp parameter is the one the signing context carries into the
credential scope and the string to sign — one instant, no skew possible. -/
theorem c4_timestamp_single_instant (cfg : R2Config) (data : List Nat)
    (key ct : String) (ts : Timestamp) :
    (uploadRequest cfg data key ct ts).headers.lookup "x-amz-date" = some (fmtAmzDate ts) ∧
    (uploadRequest cfg data key ct ts).headers.lookup "Authorization" =
      some (authorization (uploadSignInput cfg data key ct ts)
        cfg.accessKeyId cfg.secretAccessKey) ∧
    (uploadSignInput cfg data key ct ts).timestamp = ts ∧
    stringToSign (uploadSignInput cfg data key ct ts) =
      algorithm ++ "\n" ++ fmtAmzDate ts ++ "\n" ++ credentialScope ts ++ "\n" ++
        sha256Hex (strBytes (canonicalRequest (uploadSignInput cfg data key ct ts))) ∧
    (deleteRequest cfg key ts).headers.lookup "x-amz-date" = some (fmtAmzDate ts) ∧
    (deleteSignInput cfg key ts).timestamp = ts ∧
    stringToSign (deleteSignInput cfg key ts) =
      algorithm ++ "\n" ++ fmtAmzDate ts ++ "\n" ++ credentialScope ts ++ "\n" ++
        sha256Hex (strBytes (canonicalRequest (deleteSignInput cfg key ts))) :=
  ⟨rfl, rfl, rfl, rfl, rfl, rfl, rfl⟩

/-- C5: with an empty key, upload and delete fail with the validation error
(`ValueError("Key cannot be empty")`) raised before any signing work, and
the transport is never invoked — the list of issued requests is empty. -/
theorem c5_empty_key_validation (cfg : R2Config) (transport : HttpRequest → TransportResult)
    (data : List Nat) (ct key : String) (ts : Timestamp) (hk : key = "") :
    uploadFile cfg transport data key ct ts =
      (.error (.validationError "Key cannot be empty"), ([] : List HttpRequest)) ∧
    deleteFile cfg transport key ts =
      (.error (.validationError "Key cannot be empty"), ([] : List HttpRequest)) := by
  subst hk
  exact ⟨rfl, rfl⟩

/-- C5 witness: the empty-key failure at a concrete configuration, payload
and transport stub. -/
theorem c5_witness :
    ("" : String) = "" ∧
    uploadFile exCfg ex200 [] "" "text/plain" exTs =
      (.error (.validationError "Key cannot be empty"), []) ∧
    deleteFile exCfg ex200 "" exTs =
      (.error (.validationError "Key cannot be empty"), []) :=
  ⟨rfl,
   (c5_empty_key_validation exCfg ex200 [] "text/plain" "" exTs rfl).1,
   (c5_empty_key_validation exCfg ex200 [] "text/plain" "" exTs rfl).2⟩

/-- C6: when the transport outcome is a non-2xx response or a raised
transport error, upload yields the storage error wrapping exactly that
underlying cause — no URL is returned — and exactly one transport
invocation was made (no retry inside the client). -/
theorem c6_upload_failure_storage_error (cfg : R2Config)
    (transport : HttpRequest → TransportResult) (data : List Nat) (key ct : String)
    (ts : Timestamp) (hk : key ≠ "")
    (hf : isFailureOutcome (transport (uploadRequest cfg data key ct ts)) = true) :
    (uploadFile cfg transport data key ct ts).1 =
      .error (.storageError "Failed to upload file to R2"
        (causeOf (transport (uploadRequest cfg data key ct ts)))) ∧
    (uploadFile cfg transport data key ct ts).2 = [uploadRequest cfg data key ct ts] := by
  unfold uploadFile
  rw [if_neg hk]
  cases htr : transport (uploadRequest cfg data key ct ts) with
  | response s b =>
      rw [htr] at hf
      cases hb : is2xx s with
      | true => simp [isFailureOutcome, hb] at hf
      | false => simp [hb, causeOf]
  | failure m => simp [causeOf]

/-- C6 witness: a transport stub answering HTTP 403 makes upload fail with
the storage error carrying status 403, after exactly one invocation. -/
theorem c6_witness :
    ("k" : String) ≠ "" ∧
    isFailureOutcome (ex403 (uploadRequest exCfg [] "k" "text/plain" exTs)) = true ∧
    (uploadFile exCfg ex403 [] "k" "text/plain" exTs).1 =
      .error (.storageError "Failed to upload file to R2" (.httpStatus 403 "Forbidden")) ∧
    (uploadFile exCfg ex403 [] "k" "text/plain" exTs).2 =
      [uploadRequest exCfg [] "k" "text/plain" exTs] :=
  ⟨by decide, rfl,
   (c6_upload_failure_storage_error exCfg ex403 [] "k" "text/plain" exTs
      (by decide) rfl).1,
   (c6_upload_failure_storage_error exCfg ex403 [] "k" "text/plain" exTs
      (by decide) rfl).2⟩

/-- C7: when the transport answers 2xx, upload returns the public URL
`<publicBase>/<key>`, built by string concatenation, after exactly one
transport invocation. -/
theorem c7_upload_success_url (cfg : R2Config) (transport : HttpRequest → TransportResult)
    (data : List Nat) (key ct : String) (ts : Timestamp) (status : Nat) (body : String)
    (hk : key ≠ "")
    (ht : transport (uploadRequest cfg data key ct ts) = .response status body)
    (h2 : is2xx status = true) :
    (uploadFile cfg transport data key ct ts).1 = .ok (cfg.publicUrl ++ "/" ++ key) ∧
    (uploadFile cfg transport data key ct ts).2 = [uploadRequest cfg data key ct ts] := by
  unfold uploadFile
  rw [if_neg hk, ht]
  simp [h2]

/-- C7 witness: with public base `https://cdn.example.com`, key
`photos/a.jpg` and a 200 response, upload returns exactly
`https://cdn.example.com/photos/a.jpg`. -/
theorem c7_witness :
    ("photos/a.jpg" : String) ≠ "" ∧
    ex200 (uploadRequest exCfg [] "photos/a.jpg" "image/jpeg" exTs) = .response 200 "" ∧
    is2xx 200 = true ∧
    (uploadFile exCfg ex200 [] "photos/a.jpg" "image/jpeg" exTs).1 =
      .ok "https://cdn.example.com/photos/a.jpg" :=
  ⟨by decide, rfl, rfl,
   (c7_upload_success_url exCfg ex200 [] "photos/a.jpg" "image/jpeg" exTs 200 ""
      (by decide) rfl rfl).1⟩

/-- C8: every delete call signs an empty payload: the
`x-amz-content-sha256` header carries the digest of the zero-length byte
sequence, the canonical request ends in that same digest, and that digest
is `e3b0c44298fc1c149afbf4c8996fb92427ae41e4649b934ca495991b7852b855`. -/
theorem c8_delete_empty_payload_hash (cfg : R2Config) (key : String) (ts : Timestamp) :
    (deleteRequest cfg key ts).headers.lookup "x-amz-content-sha256" =
      some (sha256Hex []) ∧
    (deleteSignInput cfg key ts).payload = [] ∧
    canonicalRequest (deleteSignInput cfg key ts) =
      "DELETE" ++ "\n" ++ canonicalUri ("/" ++ cfg.bucketName ++ "/" ++ key) ++ "\n" ++
        canonicalQuerystring ++ "\n" ++ canonicalHeaders (deleteHeaders cfg ts) ++ "\n" ++
        signedHeaders (deleteHeaders cfg ts) ++ "\n" ++ sha256Hex [] ∧
    sha256Hex [] = "e3b0c44298fc1c149afbf4c8996fb92427ae41e4649b934ca495991b7852b855" :=
  ⟨rfl, rfl, rfl, by decide⟩

/-- C9: the Signer is deterministic — the Authorization value is a function
of `{method, path, headers, payload, timestamp, accessKeyId, secretKey}`
and of nothing else, so two invocations on equal inputs produce
byte-identical values. -/
theorem c9_signer_deterministic (i₁ i₂ : SignInput) (ak₁ ak₂ sk₁ sk₂ : String)
    (hm : i₁.method = i₂.method) (hp : i₁.path = i₂.path)
    (hh : i₁.headers = i₂.headers) (hpl : i₁.payload = i₂.payload)
    (ht : i₁.timestamp = i₂.timestamp) (hak : ak₁ = ak₂) (hsk : sk₁ = sk₂) :
    authorization i₁ ak₁ sk₁ = authorization i₂ ak₂ sk₂ := by
  obtain ⟨m₁, p₁, h₁, l₁, t₁⟩ := i₁
  obtain ⟨m₂, p₂, h₂, l₂, t₂⟩ := i₂
  cases hm; cases hp; cases hh; cases hpl; cases ht; cases hak; cases hsk
  rfl

/-- C9 witness: determinism at the concrete test vector. -/
theorem c9_witness :
    vecInput.method = vecInput.method ∧
    authorization vecInput "AKIDEXAMPLE" "SECRETKEY" =
      authorization vecInput "AKIDEXAMPLE" "SECRETKEY" :=
  ⟨rfl, c9_signer_deterministic vecInput vecInput "AKIDEXAMPLE" "AKIDEXAMPLE"
    "SECRETKEY" "SECRETKEY" rfl rfl rfl rfl rfl rfl rfl⟩

/-- C10: `_sign_request` returns the caller's headers mapping with the
`Authorization` entry stored into it: the returned mapping is exactly
`dictInsert headers "Authorization" value`, lookup of every other key is
unchanged, lookup of `Authorization` yields the computed value, and the
upload/delete HTTP requests are issued with exactly that mapping. -/
theorem c10_sign_request_frame (i : SignInput) (ak sk : String) (cfg : R2Config)
    (data : List Nat) (key ct : String) (ts : Timestamp) (k : String)
    (hk : k ≠ "Authorization") :
    signRequest i ak sk = dictInsert i.headers "Authorization" (authorization i ak sk) ∧
    (signRequest i ak sk).lookup "Authorization" = some (authorization i ak sk) ∧
    (signRequest i ak sk).lookup k = i.headers.lookup k ∧
    (uploadRequest cfg data key ct ts).headers =
      signRequest (uploadSignInput cfg data key ct ts)
        cfg.accessKeyId cfg.secretAccessKey ∧
    (deleteRequest cfg key ts).headers =
      signRequest (deleteSignInput cfg key ts) cfg.accessKeyId cfg.secretAccessKey :=
  ⟨rfl, dictInsert_lookup_self i.headers _ _,
   dictInsert_lookup_other i.headers _ _ k hk, rfl, rfl⟩

/-- C10 witness: the frame condition at the concrete test vector, for the
untouched key `Host`. -/
theorem c10_witness :
    ("Host" : String) ≠ "Authorization" ∧
    (signRequest vecInput "AK" "SK" =
       dictInsert vecInput.headers "Authorization" (authorization vecInput "AK" "SK") ∧
     (signRequest vecInput "AK" "SK").lookup "Authorization" =
       some (authorization vecInput "AK" "SK") ∧
     (signRequest vecInput "AK" "SK").lookup "Host" = vecInput.headers.lookup "Host" ∧
     (uploadRequest exCfg [] "k" "text/plain" exTs).headers =
       signRequest (uploadSignInput exCfg [] "k" "text/plain" exTs)
         exCfg.accessKeyId exCfg.secretAccessKey ∧
     (deleteRequest exCfg "k" exTs).headers =
       signRequest (deleteSignInput exCfg "k" exTs)
         exCfg.accessKeyId exCfg.secretAccessKey) :=
  ⟨by decide,
   c10_sign_request_frame vecInput "AK" "SK" exCfg [] "k" "text/plain" exTs "Host"
     (by decide)⟩

end R2
